import Mathlib

/-
Verification development for the telemetry-query helpers in
`policies/latency-routing/scripts/helpers/app_insights.py`.

The Python code is shallowly embedded: cell values (`Any` in Python) become
the inductive `Val`; operations that can raise Python exceptions return
`Except PyErr`.  List indexing, `list.index`, item assignment and attribute
dereference are modelled by `pyGetL`, `pyIndex` / `pyIndexVal`, `pySet` and
`pyDeref`, each failing exactly where Python raises.  `print` calls and
`time.sleep` are side effects with no influence on the returned values and
are dropped from the embedding.
-/

namespace AppInsights

/-- A Python scalar cell value as it occurs in query result tables. -/
inductive Val where
  | vNone : Val
  | vInt : Int → Val
  | vStr : String → Val
  deriving DecidableEq, Repr

/-- Python exceptions that the embedded code can raise. -/
inductive PyErr where
  | valueError : String → PyErr
  | indexError : PyErr
  | attributeError : PyErr
  | typeError : PyErr
  | exception : String → PyErr
  deriving DecidableEq, Repr

/-- Python `str()` on the values of `Val`. -/
def pyStr : Val → String
  | Val.vNone => "None"
  | Val.vInt n => toString n
  | Val.vStr s => s

/-- Python list subscription `xs[i]` for a non-negative index:
raises `IndexError` when `i` is out of range. -/
def pyGetL {α : Type} (xs : List α) (i : Nat) : Except PyErr α :=
  match xs.get? i with
  | some v => Except.ok v
  | none => Except.error PyErr.indexError

/-- First index of `x` in `xs`, if present (helper for Python `list.index`). -/
def listIndex {α : Type} [DecidableEq α] : List α → α → Option Nat
  | [], _ => none
  | y :: ys, x => if y = x then some 0 else (listIndex ys x).map (· + 1)

/-- Python `list.index` on a list of strings: `ValueError` when absent. -/
def pyIndex (xs : List String) (x : String) : Except PyErr Nat :=
  match listIndex xs x with
  | some i => Except.ok i
  | none => Except.error (PyErr.valueError (x ++ " is not in list"))

/-- Python `list.index` on a list of values: `ValueError` when absent. -/
def pyIndexVal (xs : List Val) (x : Val) : Except PyErr Nat :=
  match listIndex xs x with
  | some i => Except.ok i
  | none => Except.error (PyErr.valueError (pyStr x ++ " is not in list"))

/-- Python list item assignment `xs[i] = v`:
raises `IndexError` when `i` is out of range. -/
def pySet (xs : List Val) (i : Nat) (v : Val) : Except PyErr (List Val) :=
  if i < xs.length then Except.ok (xs.set i v) else Except.error PyErr.indexError

/-- Python truthiness of an optional string (`None` and `""` are falsy). -/
def pyTruthyStr : Option String → Bool
  | none => false
  | some s => s != ""

/-- The `Table` dataclass: `columns` of names and `rows` of cell lists. -/
structure Table where
  columns : List String
  rows : List (List Val)
  deriving DecidableEq, Repr

/-- Attribute access on an optional table (`None.rows`, `None.group_by`
raise `AttributeError`). -/
def pyDeref (x : Option Table) : Except PyErr Table :=
  match x with
  | some t => Except.ok t
  | none => Except.error PyErr.attributeError

/-- The body of the `for` loop in `Table.group_by`, one input row at a
time.  The state is the pair of the already-flushed output rows and the
optional current accumulated row.  A row whose id differs from the current
accumulated row's first cell flushes the accumulated row and starts a new
one pre-filled with `missing_value` in every group slot; the slot of the
row's group value is then overwritten with the row's value-column entry. -/
def groupStep (id_column_index group_column_index value_column_index : Nat)
    (distinct_group_column_values : List Val) (missing_value : Val)
    (st : List (List Val) × Option (List Val)) (row : List Val) :
    Except PyErr (List (List Val) × Option (List Val)) := do
  let rid ← pyGetL row id_column_index
  let st2 ←
    match st.2 with
    | none =>
      pure (st.1, rid :: List.replicate distinct_group_column_values.length missing_value)
    | some current_row => do
      let cur0 ← pyGetL current_row 0
      if cur0 ≠ rid then
        pure (st.1 ++ [current_row],
          rid :: List.replicate distinct_group_column_values.length missing_value)
      else
        pure (st.1, current_row)
  let group ← pyGetL row group_column_index
  let value ← pyGetL row value_column_index
  let gi ← pyIndexVal distinct_group_column_values group
  let current_row ← pySet st2.2 (gi + 1) value
  pure (st2.1, some current_row)

/-- `Table.group_by` from the source, translated statement by statement.
`list(set(...))` has unspecified order in Python; the embedding fixes the
deterministic order of `List.dedup` for `distinct_group_column_values`.
Note that, exactly as in the source, the final accumulated `current_row`
is never appended to the output rows before the `return`. -/
def Table.group_by (t : Table) (id_column group_column value_column : String)
    (missing_value : Val) : Except PyErr Table := do
  let group_column_index ← pyIndex t.columns group_column
  let groupVals ← t.rows.mapM (fun row => pyGetL row group_column_index)
  let distinct_group_column_values := groupVals.dedup
  let new_columns := id_column ::
    distinct_group_column_values.map (fun name => value_column ++ "_" ++ pyStr name)
  let id_column_index ← pyIndex t.columns id_column
  let value_column_index ← pyIndex t.columns value_column
  let st ← t.rows.foldlM
    (groupStep id_column_index group_column_index value_column_index
      distinct_group_column_values missing_value)
    (([] : List (List Val)), (none : Option (List Val)))
  pure { columns := new_columns, rows := st.1 }

/-- A column descriptor of the JSON query response (`{"name": ...}`). -/
structure JsonColumn where
  name : String
  deriving DecidableEq, Repr

/-- One table of the JSON query response: column descriptors plus rows. -/
structure JsonTable where
  columns : List JsonColumn
  rows : List (List Val)
  deriving DecidableEq, Repr

/-- `QueryProcessor.__create_table_from_json_response`: extracts the column
names and passes the rows through unchanged.  The source performs no
validation of row lengths against the number of columns. -/
def create_table_from_json_response (json : JsonTable) : Table :=
  { columns := json.columns.map (fun column_tuple => column_tuple.name),
    rows := json.rows }

/-- The HTTP response observed by one `requests.post` call inside
`run_query`: status code, raw body (used as the error payload), and the
`tables` list of the parsed JSON body. -/
structure HttpResponse where
  status_code : Nat
  content : String
  tables : List JsonTable

/-- `QueryProcessor.run_query`, as a function of the HTTP response the post
returns: non-200 yields `(None, response.content)`; 200 yields the first
table of the payload converted to a `Table`, paired with `None`
(`tables[0]` raises `IndexError` when the payload has no tables). -/
def run_query (response : HttpResponse) : Except PyErr (Option Table × Option String) :=
  if response.status_code ≠ 200 then
    Except.ok (none, some response.content)
  else do
    let primaryTable ← pyGetL response.tables 0
    Except.ok (some (create_table_from_json_response primaryTable), none)

/-- The body of `wait_for_non_zero_count`, one loop iteration at a time.
`polls i` is what `run_query` returns on the `i`-th invocation; the error
component of the pair is discarded (`r, _ = self.run_query(...)`), exactly
as in the source.  The `Nat` returned on success counts the query
invocations performed (the Python function returns `None`; the count is
instrumentation so that the number of invocations is observable).
`count > 0` on a non-integer raises `TypeError` in Python 3. -/
def waitFrom (polls : Nat → Option Table × Option String) : Nat → Nat → Except PyErr Nat
  | _, 0 => Except.error (PyErr.exception "❌ No metrics data found")
  | i, fuel + 1 => do
    let r := (polls i).1
    let t ← pyDeref r
    let row ← pyGetL t.rows 0
    let count ← pyGetL row 0
    let pos ←
      match count with
      | Val.vInt n => pure (decide (0 < n))
      | _ => Except.error PyErr.typeError
    if pos then pure (i + 1) else waitFrom polls (i + 1) fuel

/-- `QueryProcessor.wait_for_non_zero_count`: run the availability query up
to `max_retries` times; return as soon as `r.rows[0][0] > 0`, raise
`Exception("❌ No metrics data found")` when the budget is exhausted. -/
def wait_for_non_zero_count (polls : Nat → Option Table × Option String)
    (max_retries : Nat) : Except PyErr Nat :=
  waitFrom polls 0 max_retries

/-- The first cell `rows[0][0]` of a poll outcome's table side, when every
dereference would succeed (spec-side description used to state claims). -/
def pollCount (p : Option Table × Option String) : Option Val :=
  match p.1 with
  | some t =>
    match t.rows with
    | (c :: _) :: _ => some c
    | _ => none
  | none => none

/-- The `GroupDefinition` dataclass. -/
structure GroupDefinition where
  id_column : String
  group_column : String
  value_column : String
  missing_value : Val
  deriving Repr

/-- One entry of `QueryProcessor.__queries`, i.e. the tuple appended by
`add_query`, with its fields in the order of the source tuple.
`chart_config` is an opaque style dictionary consumed only by
`asciichart.plot` and is modelled as an opaque list of key/value pairs. -/
structure QuerySpec where
  title : String
  query : String
  validation_func : Option (Table → Option String)
  timespan : String
  is_chart : Bool
  columns : List String
  chart_config : List (String × Val)
  group_definition : Option GroupDefinition
  show_query : Bool
  include_link : Bool

/-- `get_column_values` from `QueryProcessor.__output_chart`: looks up the
column index (re-raising `ValueError` with a descriptive message when the
column is absent — the Python message additionally quotes the name) and
extracts the per-row values of that column. -/
def get_column_values (table : Table) (column : String) : Except PyErr (List Val) :=
  match listIndex table.columns column with
  | none =>
    Except.error (PyErr.valueError
      ("Column " ++ column ++ " not found in table columns: "
        ++ String.intercalate "," table.columns))
  | some column_index => table.rows.mapM (fun row => pyGetL row column_index)

/-- `QueryProcessor.__output_chart`: builds one value series per requested
column and plots them.  The embedding returns the series that would be
plotted; the `print` of the plot is a side effect and is dropped. -/
def output_chart (query_result : Table) (columns : List String) :
    Except PyErr (List (List Val)) :=
  columns.mapM (get_column_values query_result)

/-- `QueryProcessor.__output_table`: prints `tabulate(rows, columns)`.
The embedding returns the data that would be printed. -/
def output_table (query_result : Table) : List (List Val) × List String :=
  (query_result.rows, query_result.columns)

/-- The body of one iteration of the `run_queries` loop, for one query
tuple `q`, given the pair `qr = (result, error_message)` that `run_query`
returned for it.  Yields the contribution to `query_error_count` (0 or 1);
uncaught Python exceptions (none are caught in the source loop) surface as
`Except.error`.  The `print` calls, the portal link and the query echo have
no effect on the returned count and are dropped. -/
def run_queries_step (qr : Option Table × Option String) (q : QuerySpec) :
    Except PyErr Nat :=
  if pyTruthyStr qr.2 then
    pure 1
  else do
    let result ←
      match q.group_definition with
      | some gd => do
        let t ← pyDeref qr.1
        let g ← t.group_by gd.id_column gd.group_column gd.value_column gd.missing_value
        pure (some g)
      | none => pure qr.1
    if q.is_chart then do
      let t ← pyDeref result
      let _ ← output_chart t q.columns
      pure ()
    else do
      let t ← pyDeref result
      let _ := output_table t
      pure ()
    match q.validation_func with
    | some f => do
      let t ← pyDeref result
      if pyTruthyStr (f t) then pure 1 else pure 0
    | none => pure 0

/-- The `run_queries` loop from query index `i` on: process each remaining
query tuple in order, summing the error-count contributions.  `runq i` is
the outcome of the `run_query` call for the `i`-th registered query, with
the same type as `run_query` itself: the call may raise (e.g. a 200
payload with no tables), and such an exception propagates out of the loop
uncaught, exactly as in the source. -/
def run_queries_go (runq : Nat → Except PyErr (Option Table × Option String)) :
    Nat → List QuerySpec → Except PyErr Nat
  | _, [] => pure 0
  | i, q :: rest => do
    let qr ← runq i
    let c ← run_queries_step qr q
    let cs ← run_queries_go runq (i + 1) rest
    pure (c + cs)

/-- `QueryProcessor.run_queries`: runs every registered query in
registration order and returns the final `query_error_count`. -/
def run_queries (runq : Nat → Except PyErr (Option Table × Option String))
    (queries : List QuerySpec) : Except PyErr Nat :=
  run_queries_go runq 0 queries

/-- C1: the claim states that the pivot flushes the final accumulated row
after the loop, so the row count of the output equals the number of
contiguous id runs.  The source never appends the final `current_row`: on
a one-row input (one contiguous id run) the pivot returns the computed
columns but ZERO rows, contradicting the claim. -/
theorem group_by_drops_final_row :
    (Table.mk ["id", "g", "v"]
        [[Val.vInt 1, Val.vStr "a", Val.vInt 10]]).group_by "id" "g" "v" Val.vNone
      = Except.ok (Table.mk ["id", "v_a"] []) := by
  rfl

/-- C2: the claim states that the input rows
`[(1,"a",10),(2,"b",20),(1,"a",30)]`, pivoted with id = column 1,
group = column 2, value = column 3, yield two output rows whose id is 1.
In the source the final accumulated row (the second id-1 block) is never
flushed, so the output holds exactly one row with id 1, contradicting the
claim. -/
theorem group_by_noncontiguous_failing :
    (Table.mk ["c1", "c2", "c3"]
        [[Val.vInt 1, Val.vStr "a", Val.vInt 10],
         [Val.vInt 2, Val.vStr "b", Val.vInt 20],
         [Val.vInt 1, Val.vStr "a", Val.vInt 30]]).group_by "c1" "c2" "c3" Val.vNone
      = Except.ok (Table.mk ["c1", "c3_b", "c3_a"]
          [[Val.vInt 1, Val.vNone, Val.vInt 10],
           [Val.vInt 2, Val.vInt 20, Val.vNone]])
    ∧ ([[Val.vInt 1, Val.vNone, Val.vInt 10],
        [Val.vInt 2, Val.vInt 20, Val.vNone]].countP
          (fun row => row.headD Val.vNone == Val.vInt 1)) = 1 := by
  exact ⟨rfl, by decide⟩

/-- C5: the claim states that with ids `{1,2}` and groups `{"x","y"}`, where
id 2 only has group `"x"`, the pivoted output contains a row for id 2 whose
`"y"` slot holds `missingValue`.  In the source the id-2 block is the final
accumulated row and is never flushed, so the output holds no row for id 2
at all, contradicting the claim. -/
theorem group_by_missing_fill_failing :
    (Table.mk ["id", "g", "v"]
        [[Val.vInt 1, Val.vStr "x", Val.vInt 10],
         [Val.vInt 1, Val.vStr "y", Val.vInt 11],
         [Val.vInt 2, Val.vStr "x", Val.vInt 20]]).group_by "id" "g" "v" Val.vNone
      = Except.ok (Table.mk ["id", "v_y", "v_x"]
          [[Val.vInt 1, Val.vInt 11, Val.vInt 10]])
    ∧ ([[Val.vInt 1, Val.vInt 11, Val.vInt 10]].countP
          (fun row => row.headD Val.vNone == Val.vInt 2)) = 0 := by
  exact ⟨rfl, by decide⟩

/-- C6 counterexample: the claim states that constructing a table from a
parsed response fails with `MalformedResponse` whenever some row's length
differs from the number of column descriptors.  The source performs no such
check: on a response with two columns and a one-element row it succeeds and
returns the mismatched row unchanged. -/
theorem create_table_no_length_check_cex :
    create_table_from_json_response
        (JsonTable.mk [JsonColumn.mk "a", JsonColumn.mk "b"] [[Val.vInt 1]])
      = Table.mk ["a", "b"] [[Val.vInt 1]]
    ∧ (Table.mk ["a", "b"] [[Val.vInt 1]]).columns.length = 2
    ∧ ((Table.mk ["a", "b"] [[Val.vInt 1]]).rows.headD []).length = 1 := by
  refine ⟨rfl, rfl, rfl⟩

/-- C6 amended: construction from a parsed response never validates row
lengths: it always succeeds, with `columns` the descriptor names in
response order and `rows` passed through unchanged (so a row whose length
differs from the number of columns is accepted as-is). -/
theorem create_table_unvalidated (json : JsonTable) :
    (create_table_from_json_response json).columns
        = json.columns.map (fun column_tuple => column_tuple.name)
    ∧ (create_table_from_json_response json).rows = json.rows := by
  exact ⟨rfl, rfl⟩

@[simp] theorem pure_eq_ok {α : Type} (a : α) :
    (pure a : Except PyErr α) = Except.ok a := rfl

@[simp] theorem ok_bind {α β : Type} (a : α) (f : α → Except PyErr β) :
    (Except.ok a >>= f) = f a := rfl

@[simp] theorem error_bind {α β : Type} (e : PyErr) (f : α → Except PyErr β) :
    ((Except.error e : Except PyErr α) >>= f) = Except.error e := rfl

theorem pollCount_some {p : Option Table × Option String} {v : Val}
    (h : pollCount p = some v) :
    ∃ t row rest, p.1 = some t ∧ t.rows = (v :: row) :: rest := by
  obtain ⟨pt, pe⟩ := p
  cases pt with
  | none => simp [pollCount] at h
  | some t =>
    cases hr : t.rows with
    | nil => simp [pollCount, hr] at h
    | cons r rest =>
      cases r with
      | nil => simp [pollCount, hr] at h
      | cons c row =>
        simp [pollCount, hr] at h
        exact ⟨t, row, rest, rfl, by rw [hr, h]⟩

theorem waitFrom_step_zero (polls : Nat → Option Table × Option String)
    (i fuel : Nat) (h : pollCount (polls i) = some (Val.vInt 0)) :
    waitFrom polls i (fuel + 1) = waitFrom polls (i + 1) fuel := by
  obtain ⟨t, row, rest, hp, hr⟩ := pollCount_some h
  simp [waitFrom, pyDeref, hp, hr, pyGetL]

theorem waitFrom_step_pos (polls : Nat → Option Table × Option String)
    (i fuel : Nat) (c : Int) (hc : 0 < c)
    (h : pollCount (polls i) = some (Val.vInt c)) :
    waitFrom polls i (fuel + 1) = Except.ok (i + 1) := by
  obtain ⟨t, row, rest, hp, hr⟩ := pollCount_some h
  simp [waitFrom, pyDeref, hp, hr, pyGetL, hc]

theorem waitFrom_skip (polls : Nat → Option Table × Option String) (i : Nat) :
    ∀ start fuel, (∀ j, j < i → pollCount (polls (start + j)) = some (Val.vInt 0)) →
      i ≤ fuel → waitFrom polls start fuel = waitFrom polls (start + i) (fuel - i) := by
  induction i with
  | zero => intro start fuel _ _; rfl
  | succ k ih =>
    intro start fuel hz hle
    obtain ⟨f, rfl⟩ : ∃ f, fuel = f + 1 := ⟨fuel - 1, by omega⟩
    have h0 : pollCount (polls start) = some (Val.vInt 0) := by
      have := hz 0 (by omega); simpa using this
    rw [waitFrom_step_zero polls start f h0]
    have hz' : ∀ j, j < k → pollCount (polls (start + 1 + j)) = some (Val.vInt 0) := by
      intro j hj
      have := hz (j + 1) (by omega)
      have harith : start + (j + 1) = start + 1 + j := by omega
      rwa [harith] at this
    have := ih (start + 1) f hz' (by omega)
    have harith2 : start + 1 + k = start + (k + 1) := by omega
    have harith3 : f - k = f + 1 - (k + 1) := by omega
    rwa [harith2, harith3] at this

theorem waitFrom_congr (polls polls' : Nat → Option Table × Option String) :
    ∀ fuel start, (∀ j, start ≤ j → j < start + fuel → polls j = polls' j) →
      waitFrom polls start fuel = waitFrom polls' start fuel := by
  intro fuel
  induction fuel with
  | zero => intro start _; rfl
  | succ f ih =>
    intro start h
    have h0 : polls start = polls' start := h start (Nat.le_refl _) (by omega)
    have ih' : waitFrom polls (start + 1) f = waitFrom polls' (start + 1) f :=
      ih (start + 1) (fun j hj1 hj2 => h j (by omega) (by omega))
    simp only [waitFrom, h0, ih']

theorem waitFrom_fst_congr (polls polls' : Nat → Option Table × Option String)
    (hfst : ∀ j, (polls j).1 = (polls' j).1) :
    ∀ fuel start, waitFrom polls start fuel = waitFrom polls' start fuel := by
  intro fuel
  induction fuel with
  | zero => intro start; rfl
  | succ f ih =>
    intro start
    simp only [waitFrom, hfst start, ih (start + 1)]

/-- C7: the availability waiter returns as soon as a poll's `rows[0][0]` is
positive; with an attempt budget of 3, three zero-count responses yield the
terminal `Exception("❌ No metrics data found")`, and the outcome only ever
depends on the first 3 poll results (exactly 3 invocations, never more). -/
theorem wait_for_non_zero_count_terminates
    (polls polls' : Nat → Option Table × Option String) :
    ((∀ i, i < 3 → pollCount (polls i) = some (Val.vInt 0)) →
      wait_for_non_zero_count polls 3
        = Except.error (PyErr.exception "❌ No metrics data found"))
    ∧ ((∀ i, i < 3 → polls i = polls' i) →
      wait_for_non_zero_count polls 3 = wait_for_non_zero_count polls' 3)
    ∧ (∀ i n, i < n → (∀ j, j < i → pollCount (polls j) = some (Val.vInt 0)) →
      ∀ c, pollCount (polls i) = some (Val.vInt c) → 0 < c →
        wait_for_non_zero_count polls n = Except.ok (i + 1)) := by
  refine ⟨fun hz => ?_, fun hagree => ?_, fun i n hin hz c hc hpos => ?_⟩
  · have := waitFrom_skip polls 3 0 3 (fun j hj => by simpa using hz j hj) (by omega)
    simpa [wait_for_non_zero_count] using this
  · exact waitFrom_congr polls polls' 3 0 (fun j hj1 hj2 => hagree j (by omega))
  · have hskip := waitFrom_skip polls i 0 n (fun j hj => by simpa using hz j hj) (by omega)
    have hni : n - i = (n - i - 1) + 1 := by omega
    rw [wait_for_non_zero_count, hskip, Nat.zero_add, hni,
      waitFrom_step_pos polls i (n - i - 1) c hpos hc]

/-- C7 witness: three zero-count polls with budget 3 raise the terminal
exception; a positive first poll returns after one invocation. -/
theorem wait_for_non_zero_count_terminates_witness :
    wait_for_non_zero_count
        (fun _ => (some (Table.mk ["Count"] [[Val.vInt 0]]), none)) 3
      = Except.error (PyErr.exception "❌ No metrics data found")
    ∧ wait_for_non_zero_count
        (fun _ => (some (Table.mk ["Count"] [[Val.vInt 5]]), none)) 1
      = Except.ok 1 := by
  constructor
  · exact (wait_for_non_zero_count_terminates
      (fun _ => (some (Table.mk ["Count"] [[Val.vInt 0]]), none))
      (fun _ => (some (Table.mk ["Count"] [[Val.vInt 0]]), none))).1
      (fun i _ => rfl)
  · exact (wait_for_non_zero_count_terminates
      (fun _ => (some (Table.mk ["Count"] [[Val.vInt 5]]), none))
      (fun _ => (some (Table.mk ["Count"] [[Val.vInt 5]]), none))).2.2
      0 1 (by omega) (fun j hj => absurd hj (by omega)) 5 rfl (by omega)

/-- C10: if a poll attempt receives an error outcome (no table) the waiter
raises `AttributeError`; if it receives a table with no rows it raises
`IndexError`; neither is the terminal no-metrics-data exception.  The error
component of each poll's outcome pair is ignored entirely: the waiter's
result depends only on the table component. -/
theorem wait_ignores_error_side (polls : Nat → Option Table × Option String)
    (i n : Nat) :
    (i < n → (∀ j, j < i → pollCount (polls j) = some (Val.vInt 0)) →
      (((polls i).1 = none →
          wait_for_non_zero_count polls n = Except.error PyErr.attributeError)
        ∧ (∀ t, (polls i).1 = some t → t.rows = [] →
          wait_for_non_zero_count polls n = Except.error PyErr.indexError)))
    ∧ (∀ polls' m, (∀ j, (polls j).1 = (polls' j).1) →
        wait_for_non_zero_count polls m = wait_for_non_zero_count polls' m)
    ∧ PyErr.attributeError ≠ PyErr.exception "❌ No metrics data found"
    ∧ PyErr.indexError ≠ PyErr.exception "❌ No metrics data found" := by
  refine ⟨fun hin hz => ?_, fun polls' m hfst =>
    waitFrom_fst_congr polls polls' hfst m 0, by decide, by decide⟩
  have hskip := waitFrom_skip polls i 0 n (fun j hj => by simpa using hz j hj) (by omega)
  have hni : n - i = (n - i - 1) + 1 := by omega
  constructor
  · intro hnone
    rw [wait_for_non_zero_count, hskip, Nat.zero_add, hni]
    simp [waitFrom, pyDeref, hnone]
  · intro t ht hrows
    rw [wait_for_non_zero_count, hskip, Nat.zero_add, hni]
    simp [waitFrom, pyDeref, ht, hrows, pyGetL]

/-- C10 witness: an error outcome on the first poll raises
`AttributeError`; an empty-rows table raises `IndexError`. -/
theorem wait_ignores_error_side_witness :
    wait_for_non_zero_count (fun _ => (none, some "HTTP 500")) 3
      = Except.error PyErr.attributeError
    ∧ wait_for_non_zero_count (fun _ => (some (Table.mk ["Count"] []), none)) 3
      = Except.error PyErr.indexError := by
  constructor
  · exact ((wait_ignores_error_side (fun _ => (none, some "HTTP 500")) 0 3).1
      (by omega) (fun j hj => absurd hj (by omega))).1 rfl
  · exact ((wait_ignores_error_side
      (fun _ => (some (Table.mk ["Count"] []), none)) 0 3).1
      (by omega) (fun j hj => absurd hj (by omega))).2 (Table.mk ["Count"] []) rfl rfl

/-- C8: `run_query` populates exactly one side of its outcome pair: a
non-200 status yields `(None, raw error body)`; a 200 status with a
non-empty `tables` payload yields the first table converted to a `Table`
paired with `None`. -/
theorem run_query_exclusive_outcome (response : HttpResponse) :
    (response.status_code ≠ 200 →
      run_query response = Except.ok (none, some response.content))
    ∧ (response.status_code = 200 → ∀ t0 rest, response.tables = t0 :: rest →
      run_query response
        = Except.ok (some (create_table_from_json_response t0), none))
    ∧ (∀ r e, run_query response = Except.ok (r, e) → (r.isSome ↔ e.isNone)) := by
  refine ⟨fun hne => by simp [run_query, hne], fun heq t0 rest htab => ?_, ?_⟩
  · simp [run_query, heq, htab, pyGetL]
  · intro r e hok
    by_cases heq : response.status_code = 200
    · cases htab : response.tables with
      | nil => simp [run_query, heq, htab, pyGetL] at hok
      | cons t0 rest =>
        simp [run_query, heq, htab, pyGetL] at hok
        obtain ⟨hr, he⟩ := hok
        simp [← hr, ← he]
    · simp [run_query, heq] at hok
      obtain ⟨hr, he⟩ := hok
      simp [← hr, ← he]

/-- C8 witness: a 404 yields only the error body; a 200 with one table
yields only the converted table. -/
theorem run_query_exclusive_outcome_witness :
    run_query (HttpResponse.mk 404 "not found" [])
      = Except.ok (none, some "not found")
    ∧ run_query (HttpResponse.mk 200 ""
        [JsonTable.mk [JsonColumn.mk "c"] [[Val.vInt 5]]])
      = Except.ok (some (create_table_from_json_response
          (JsonTable.mk [JsonColumn.mk "c"] [[Val.vInt 5]])), none) := by
  constructor
  · exact (run_query_exclusive_outcome (HttpResponse.mk 404 "not found" [])).1
      (by decide)
  · exact (run_query_exclusive_outcome (HttpResponse.mk 200 ""
      [JsonTable.mk [JsonColumn.mk "c"] [[Val.vInt 5]]])).2.1 rfl
      (JsonTable.mk [JsonColumn.mk "c"] [[Val.vInt 5]]) [] rfl

theorem listIndex_eq_none {α : Type} [DecidableEq α] {xs : List α} {x : α}
    (h : x ∉ xs) : listIndex xs x = none := by
  induction xs with
  | nil => rfl
  | cons y ys ih =>
    have h1 : ¬(y = x) := by rintro rfl; exact h (List.mem_cons_self _ _)
    have h2 : x ∉ ys := fun hx => h (List.mem_cons_of_mem _ hx)
    simp [listIndex, h1, ih h2]

theorem group_by_unknown_group_column (t : Table) (idc gc vc : String)
    (miss : Val) (hg : gc ∉ t.columns) :
    t.group_by idc gc vc miss
      = Except.error (PyErr.valueError (gc ++ " is not in list")) := by
  simp [Table.group_by, pyIndex, listIndex_eq_none hg]

/-- A minimal registered query tuple: no chart, no grouping, no validator. -/
def plainSpec (title : String) : QuerySpec :=
  { title := title, query := "Q", validation_func := none, timespan := "PT12H",
    is_chart := false, columns := [], chart_config := [],
    group_definition := none, show_query := false, include_link := false }

/-- A registered query tuple whose group definition names a group column
that the result table does not have. -/
def badPivotSpec : QuerySpec :=
  { plainSpec "q2" with
    group_definition := some (GroupDefinition.mk "id" "nope" "v" Val.vNone) }

/-- C3 counterexample: the claim states that an `UnknownColumn` failure
while pivoting one registered spec is scoped to that spec, with the batch
runner still executing every later spec and returning a failure count.
In the source no exception is caught inside the `run_queries` loop: on a
three-spec batch whose second spec pivots on an absent column, the whole
run aborts with the uncaught `ValueError` instead of returning a count. -/
theorem run_queries_unknown_column_cex :
    run_queries
        (fun _ => Except.ok (some (Table.mk ["id", "g", "v"]
          [[Val.vInt 1, Val.vStr "a", Val.vInt 10]]), none))
        [plainSpec "q1", badPivotSpec, plainSpec "q3"]
      = Except.error (PyErr.valueError "nope is not in list") := by
  rfl

/-- C3 amended: a `ValueError` from resolving an unknown column while
pivoting a spec is not caught by `run_queries`: it aborts the batch
immediately — whatever specs are registered after the failing one, the run
returns the uncaught error rather than a failure count. -/
theorem run_queries_unknown_column_aborts
    (runq : Nat → Except PyErr (Option Table × Option String)) (t : Table)
    (gd : GroupDefinition) (q : QuerySpec) (rest : List QuerySpec)
    (h0 : runq 0 = Except.ok (some t, none))
    (hq : q.group_definition = some gd)
    (hg : gd.group_column ∉ t.columns) :
    run_queries runq (q :: rest)
      = Except.error (PyErr.valueError (gd.group_column ++ " is not in list")) := by
  have hstep : run_queries_step (some t, none) q
      = Except.error (PyErr.valueError (gd.group_column ++ " is not in list")) := by
    simp [run_queries_step, hq, pyTruthyStr, pyDeref,
      group_by_unknown_group_column t gd.id_column gd.group_column
        gd.value_column gd.missing_value hg]
  simp [run_queries, run_queries_go, h0, hstep]

/-- C3 witness: the abort theorem applied to a concrete batch with a later
spec still registered. -/
theorem run_queries_unknown_column_aborts_witness :
    run_queries
        (fun _ => Except.ok (some (Table.mk ["id", "g", "v"]
          [[Val.vInt 1, Val.vStr "a", Val.vInt 10]]), none))
        [badPivotSpec, plainSpec "q3"]
      = Except.error (PyErr.valueError "nope is not in list") := by
  exact run_queries_unknown_column_aborts
    (fun _ => Except.ok (some (Table.mk ["id", "g", "v"]
      [[Val.vInt 1, Val.vStr "a", Val.vInt 10]]), none))
    (Table.mk ["id", "g", "v"] [[Val.vInt 1, Val.vStr "a", Val.vInt 10]])
    (GroupDefinition.mk "id" "nope" "v" Val.vNone)
    badPivotSpec [plainSpec "q3"] rfl rfl (by decide)

/-- C4 counterexample: the claim states that a transport, PARSE, or
validation failure in any one query never prevents subsequent registered
queries from running.  A parse failure is an exception raised inside
`run_query` itself — here a 200 response whose payload has no tables, so
`response.json()["tables"][0]` raises `IndexError`.  Nothing in the
`run_queries` loop catches it: on a three-spec batch whose second query
execution parse-fails, the whole run aborts with the uncaught exception
instead of running the third spec and returning a failure count. -/
theorem run_queries_parse_abort_cex :
    run_query (HttpResponse.mk 200 "{}" []) = Except.error PyErr.indexError
    ∧ run_queries
        (fun i => if i = 1 then run_query (HttpResponse.mk 200 "{}" [])
          else Except.ok (some (Table.mk ["c"] [[Val.vInt 1]]), none))
        [plainSpec "q1", plainSpec "q2", plainSpec "q3"]
      = Except.error PyErr.indexError := by
  exact ⟨rfl, rfl⟩

/-- C4 amended: in a three-spec batch whose second query execution returns
a transport-error OUTCOME (an error body, no exception) while the first
and third specs each process with zero failures, `run_queries` returns
exactly 1; a transport-error outcome at the head never prevents the
remaining specs from being processed in order.  Parse failures are NOT
isolated: an exception raised by the query execution itself propagates
out of the loop and aborts the batch. -/
theorem run_queries_transport_isolated
    (runq : Nat → Except PyErr (Option Table × Option String))
    (q1 q2 q3 : QuerySpec) (r0 r2 : Option Table × Option String)
    (e : String) (he : e ≠ "")
    (h0 : runq 0 = Except.ok r0) (hs1 : run_queries_step r0 q1 = Except.ok 0)
    (h2 : runq 1 = Except.ok (none, some e))
    (h3 : runq 2 = Except.ok r2) (hs3 : run_queries_step r2 q3 = Except.ok 0) :
    run_queries runq [q1, q2, q3] = Except.ok 1
    ∧ (∀ (runq' : Nat → Except PyErr (Option Table × Option String))
        (q : QuerySpec) (rest : List QuerySpec)
        (p : Option Table × Option String),
        runq' 0 = Except.ok p → pyTruthyStr p.2 = true →
        run_queries runq' (q :: rest)
          = Except.map (fun n => 1 + n) (run_queries_go runq' 1 rest))
    ∧ (∀ (runq' : Nat → Except PyErr (Option Table × Option String))
        (q : QuerySpec) (rest : List QuerySpec) (err : PyErr),
        runq' 0 = Except.error err →
        run_queries runq' (q :: rest) = Except.error err) := by
  refine ⟨?_, ?_, ?_⟩
  · have hs2 : run_queries_step (none, some e) q2 = Except.ok 1 := by
      simp [run_queries_step, pyTruthyStr, he]
    simp [run_queries, run_queries_go, h0, hs1, h2, hs2, h3, hs3]
  · intro runq' q rest p hp htrue
    have hs : run_queries_step p q = Except.ok 1 := by
      rw [run_queries_step, htrue]; rfl
    rw [run_queries, run_queries_go, hp, ok_bind, hs]
    cases hgo : run_queries_go runq' 1 rest with
    | error err => simp [Except.map]
    | ok n => simp [Except.map]
  · intro runq' q rest err herr
    rw [run_queries, run_queries_go, herr, error_bind]

/-- C4 witness: a concrete three-spec batch whose second query fails with a
transport error body returns failure count 1. -/
theorem run_queries_transport_isolated_witness :
    run_queries
        (fun i => if i = 1 then Except.ok (none, some "HTTP 500")
          else Except.ok (some (Table.mk ["c"] [[Val.vInt 1]]), none))
        [plainSpec "q1", plainSpec "q2", plainSpec "q3"]
      = Except.ok 1 := by
  exact (run_queries_transport_isolated
    (fun i => if i = 1 then Except.ok (none, some "HTTP 500")
      else Except.ok (some (Table.mk ["c"] [[Val.vInt 1]]), none))
    (plainSpec "q1") (plainSpec "q2") (plainSpec "q3")
    (some (Table.mk ["c"] [[Val.vInt 1]]), none)
    (some (Table.mk ["c"] [[Val.vInt 1]]), none)
    "HTTP 500" (by decide) rfl rfl rfl rfl rfl).1

/-- The values of column `c` of `t`, read at the column's first index
(spec-side description used to state the pivot-shape claim; out-of-range
cells read as `vNone`, which cannot occur under the row-length invariant). -/
def columnValues (t : Table) (c : String) : List Val :=
  match listIndex t.columns c with
  | some i => t.rows.map (fun row => (row.get? i).getD Val.vNone)
  | none => []

theorem listIndex_of_mem {α : Type} [DecidableEq α] {xs : List α} {x : α}
    (h : x ∈ xs) : ∃ i, listIndex xs x = some i ∧ i < xs.length := by
  induction xs with
  | nil => cases h
  | cons y ys ih =>
    by_cases hyx : y = x
    · exact ⟨0, by simp [listIndex, hyx], by simp⟩
    · have hx : x ∈ ys := by
        cases h with
        | head => exact absurd rfl hyx
        | tail _ h' => exact h'
      obtain ⟨i, hi, hlt⟩ := ih hx
      refine ⟨i + 1, by simp [listIndex, hyx, hi], ?_⟩
      simp only [List.length_cons]
      omega

theorem pyGetL_ok {row : List Val} {i : Nat} (h : i < row.length) :
    pyGetL row i = Except.ok ((row.get? i).getD Val.vNone) := by
  unfold pyGetL
  cases hg : row.get? i with
  | none =>
    have := List.get?_eq_none.mp hg
    omega
  | some v => simp [hg]

theorem mapM_pyGetL_ok {i : Nat} (rows : List (List Val))
    (h : ∀ row ∈ rows, i < row.length) :
    rows.mapM (fun row => pyGetL row i)
      = Except.ok (rows.map (fun row => (row.get? i).getD Val.vNone)) := by
  induction rows with
  | nil => rfl
  | cons r rs ih =>
    have hr : i < r.length := h r (List.mem_cons_self _ _)
    rw [List.mapM_cons, pyGetL_ok hr, ok_bind,
      ih (fun row hrow => h row (List.mem_cons_of_mem _ hrow)), ok_bind]
    rfl

theorem foldlM_ok {α β : Type} (Inv : β → Prop) (f : β → α → Except PyErr β)
    (l : List α) (init : β) (h0 : Inv init)
    (hstep : ∀ s a, a ∈ l → Inv s → ∃ s', f s a = Except.ok s' ∧ Inv s') :
    ∃ s', l.foldlM f init = Except.ok s' ∧ Inv s' := by
  induction l generalizing init with
  | nil => exact ⟨init, rfl, h0⟩
  | cons a as ih =>
    obtain ⟨s1, hf, h1⟩ := hstep init a (List.mem_cons_self _ _) h0
    obtain ⟨s', hfold, h'⟩ :=
      ih s1 h1 (fun s b hb hs => hstep s b (List.mem_cons_of_mem _ hb) hs)
    refine ⟨s', ?_, h'⟩
    rw [List.foldlM_cons, hf, ok_bind, hfold]

theorem groupStep_ok (idci gci vci : Nat) (distinct : List Val) (miss : Val)
    (row : List Val) (st : List (List Val) × Option (List Val))
    (hidlt : idci < row.length) (hgclt : gci < row.length)
    (hvclt : vci < row.length)
    (hmem : (row.get? gci).getD Val.vNone ∈ distinct)
    (hinv : st.2 = none
      ∨ ∃ cur, st.2 = some cur ∧ cur.length = distinct.length + 1) :
    ∃ st', groupStep idci gci vci distinct miss st row = Except.ok st'
      ∧ (st'.2 = none
        ∨ ∃ cur, st'.2 = some cur ∧ cur.length = distinct.length + 1) := by
  obtain ⟨gi, hgi, hgilt⟩ := listIndex_of_mem hmem
  have hnewlen :
      (((row.get? idci).getD Val.vNone) :: List.replicate distinct.length miss).length
        = distinct.length + 1 := by
    simp [List.length_replicate]
  rcases hinv with hnone | ⟨cur, hcur, hcurlen⟩
  · have hset : gi + 1
        < (((row.get? idci).getD Val.vNone) :: List.replicate distinct.length miss).length := by
      rw [hnewlen]; omega
    refine ⟨(st.1, some
      ((((row.get? idci).getD Val.vNone) :: List.replicate distinct.length miss).set
        (gi + 1) ((row.get? vci).getD Val.vNone))), ?_, ?_⟩
    · simp only [groupStep, pyGetL_ok hidlt, pyGetL_ok hgclt, pyGetL_ok hvclt,
        ok_bind, hnone, pyIndexVal, hgi, pySet, hset, if_true, pure_eq_ok,
        if_pos hset]
    · refine Or.inr ⟨_, rfl, ?_⟩
      rw [List.length_set, hnewlen]
  · have hcur0 : (0 : Nat) < cur.length := by omega
    by_cases hne : ((cur.get? 0).getD Val.vNone) ≠ ((row.get? idci).getD Val.vNone)
    · have hset : gi + 1
          < (((row.get? idci).getD Val.vNone) :: List.replicate distinct.length miss).length := by
        rw [hnewlen]; omega
      refine ⟨(st.1 ++ [cur], some
        ((((row.get? idci).getD Val.vNone) :: List.replicate distinct.length miss).set
          (gi + 1) ((row.get? vci).getD Val.vNone))), ?_, ?_⟩
      · simp only [groupStep, pyGetL_ok hidlt, pyGetL_ok hgclt, pyGetL_ok hvclt,
          pyGetL_ok hcur0, ok_bind, hcur, pyIndexVal, hgi, pySet,
          pure_eq_ok, if_pos hset]
        rw [if_pos hne]
      · refine Or.inr ⟨_, rfl, ?_⟩
        rw [List.length_set, hnewlen]
    · have hset : gi + 1 < cur.length := by omega
      refine ⟨(st.1, some (cur.set (gi + 1) ((row.get? vci).getD Val.vNone))), ?_, ?_⟩
      · simp only [groupStep, pyGetL_ok hidlt, pyGetL_ok hgclt, pyGetL_ok hvclt,
          pyGetL_ok hcur0, ok_bind, hcur, hne, if_false, pyIndexVal, hgi, pySet,
          pure_eq_ok, if_pos hset]
      · refine Or.inr ⟨_, rfl, ?_⟩
        rw [List.length_set, hcurlen]

/-- C9: for a table whose three configured columns exist and whose rows all
have the declared width, the pivot succeeds and its column list is the id
column followed by one `<valueColumn>_<groupValue>` column per distinct
group value — length `1 + |distinct groupColumn values|`, independent of
the row count — and a zero-row input yields zero output rows. -/
theorem group_by_shape (t : Table) (idc gc vc : String) (miss : Val)
    (hid : idc ∈ t.columns) (hg : gc ∈ t.columns) (hv : vc ∈ t.columns)
    (hwf : ∀ row ∈ t.rows, row.length = t.columns.length) :
    ∃ rows', t.group_by idc gc vc miss
        = Except.ok (Table.mk
            (idc :: (columnValues t gc).dedup.map (fun g => vc ++ "_" ++ pyStr g))
            rows')
      ∧ (idc :: (columnValues t gc).dedup.map
            (fun g => vc ++ "_" ++ pyStr g)).length
          = 1 + (columnValues t gc).toFinset.card
      ∧ (t.rows = [] → rows' = []) := by
  obtain ⟨gci, hgci, hgcilt⟩ := listIndex_of_mem hg
  obtain ⟨idci, hidci, hidcilt⟩ := listIndex_of_mem hid
  obtain ⟨vci, hvci, hvcilt⟩ := listIndex_of_mem hv
  have hcv : columnValues t gc
      = t.rows.map (fun row => (row.get? gci).getD Val.vNone) := by
    simp [columnValues, hgci]
  have hmapM : t.rows.mapM (fun row => pyGetL row gci)
      = Except.ok (t.rows.map (fun row => (row.get? gci).getD Val.vNone)) :=
    mapM_pyGetL_ok t.rows (fun row hrow => by rw [hwf row hrow]; exact hgcilt)
  obtain ⟨st, hfold, _⟩ := foldlM_ok
    (fun st => st.2 = none ∨ ∃ cur, st.2 = some cur
      ∧ cur.length
        = ((t.rows.map (fun row => (row.get? gci).getD Val.vNone)).dedup).length + 1)
    (groupStep idci gci vci
      ((t.rows.map (fun row => (row.get? gci).getD Val.vNone)).dedup) miss)
    t.rows (([] : List (List Val)), (none : Option (List Val))) (Or.inl rfl)
    (fun s a ha hs => by
      refine groupStep_ok idci gci vci _ miss a s ?_ ?_ ?_ ?_ hs
      · rw [hwf a ha]; exact hidcilt
      · rw [hwf a ha]; exact hgcilt
      · rw [hwf a ha]; exact hvcilt
      · rw [List.mem_dedup]
        exact List.mem_map_of_mem _ ha)
  refine ⟨st.1, ?_, ?_, ?_⟩
  · rw [hcv]
    simp only [Table.group_by, pyIndex, hgci, hidci, hvci, ok_bind, hmapM]
    rw [hfold, ok_bind]
    rfl
  · rw [hcv]
    simp only [List.length_cons, List.length_map, List.card_toFinset]
    omega
  · intro hnil
    rw [hnil] at hfold
    simp only [List.foldlM_nil] at hfold
    have : (([] : List (List Val)), (none : Option (List Val))) = st := by
      exact Except.ok.inj hfold
    rw [← this]

/-- C9 witness: the shape theorem applied to a concrete well-formed table. -/
theorem group_by_shape_witness :
    ∃ rows', (Table.mk ["id", "g", "v"]
        [[Val.vInt 1, Val.vStr "a", Val.vInt 10]]).group_by "id" "g" "v" Val.vNone
        = Except.ok (Table.mk
            (("id" : String) :: (columnValues (Table.mk ["id", "g", "v"]
              [[Val.vInt 1, Val.vStr "a", Val.vInt 10]]) "g").dedup.map
                (fun g => "v" ++ "_" ++ pyStr g))
            rows')
      ∧ (("id" : String) :: (columnValues (Table.mk ["id", "g", "v"]
            [[Val.vInt 1, Val.vStr "a", Val.vInt 10]]) "g").dedup.map
              (fun g => "v" ++ "_" ++ pyStr g)).length
          = 1 + (columnValues (Table.mk ["id", "g", "v"]
              [[Val.vInt 1, Val.vStr "a", Val.vInt 10]]) "g").toFinset.card
      ∧ ((Table.mk ["id", "g", "v"]
            [[Val.vInt 1, Val.vStr "a", Val.vInt 10]]).rows = [] → rows' = []) := by
  exact group_by_shape
    (Table.mk ["id", "g", "v"] [[Val.vInt 1, Val.vStr "a", Val.vInt 10]])
    "id" "g" "v" Val.vNone (by decide) (by decide) (by decide) (by decide)

end AppInsights
